import Mathlib

/-!
Verification development for the two-pass STF verification pipeline of this
repository (`testing/zkvm-script/src/main.rs`) and the alloy-to-reth type
conversions (`crates/primitives/src/alloy_compat.rs`).

Shallow embedding conventions:
* Machine integers (`u64`, `U256`, addresses, hashes) are modelled as `Nat`;
  where a Rust fallible narrowing (`try_into` to `u64`) occurs, the embedding
  checks `< 2 ^ 64` explicitly.  Where a Rust arithmetic operation can
  underflow (`U256` subtraction) the embedding models the debug-assertion
  semantics: underflow is a panic, not a wrap.
* Fallible Rust code returning `Result` is embedded into `RResult`, which has
  a third outcome `panicked` covering `unwrap()` on `None`, `todo!()` and
  arithmetic underflow — Rust executions that terminate abnormally instead of
  returning a value.
* External collaborators (the RPC provider, the Merkle-Patricia-Trie proof
  check, keccak256, the EVM block executor, sender recovery) are parameters
  (oracle functions), mirroring the spec's "treated as external collaborators"
  boundary.
-/

namespace RethNew

/-- Outcome of running a fallible Rust function: a value, a returned error, or
an abnormal termination (panic from `unwrap()`/`todo!()`/arithmetic underflow). -/
inductive RResult (ε : Type) (α : Type) where
  | ok (a : α)
  | error (e : ε)
  | panicked
deriving DecidableEq

def RResult.bind {ε α β : Type} : RResult ε α → (α → RResult ε β) → RResult ε β
  | .ok a, f => f a
  | .error e, _ => .error e
  | .panicked, _ => .panicked

def RResult.mapError {ε ε' α : Type} (f : ε → ε') : RResult ε α → RResult ε' α
  | .ok a => .ok a
  | .error e => .error (f e)
  | .panicked => .panicked

def RResult.ofExcept {ε α : Type} : Except ε α → RResult ε α
  | .ok a => .ok a
  | .error e => .error e

/-! ## `crates/primitives/src/alloy_compat.rs` — data model -/

/-- `alloy_rlp::Error`, restricted to the variants the conversion produces. -/
inductive RlpError where
  | overflow
  | custom (msg : String)
deriving DecidableEq

/-- `alloy_eips::eip2718::Eip2718Error` as used by the conversion. -/
inductive Eip2718Kind where
  | unexpectedType (b : Nat)
  | rlpError (e : RlpError)
deriving DecidableEq

/-- `alloy_rpc_types::ConversionError`, restricted to the variants the
conversion code produces. -/
inductive ConversionError where
  | missingSignature
  | missingFullTransactions
  | missingGasPrice
  | missingChainId
  | missingAccessList
  | missingMaxPriorityFeePerGas
  | missingMaxFeePerGas
  | missingBlobVersionedHashes
  | missingMaxFeePerBlobGas
  | missingBlockNumber
  | baseFeePerGasConversion
  | blobGasUsedConversion
  | excessBlobGasConversion
  | gasLimitConversion
  | gasUsedConversion
  | eip2718Error (e : Eip2718Kind)
deriving DecidableEq

/-- `reth_primitives::TxType` (with the `optimism` feature, which adds the
`deposit` variant). -/
inductive TxType where
  | legacy
  | eip2930
  | eip1559
  | eip4844
  | deposit
deriving DecidableEq

/-- `TryFrom<u8> for TxType`: byte tags `0..3` plus the optimism deposit tag
`0x7E = 126`; everything else is an unexpected-type error (`none` here). -/
def txTypeFromByte (b : Nat) : Option TxType :=
  if b = 0 then some .legacy
  else if b = 1 then some .eip2930
  else if b = 2 then some .eip1559
  else if b = 3 then some .eip4844
  else if b = 126 then some .deposit
  else none

/-- `alloy_primitives::TxKind`. -/
inductive TxKind where
  | create
  | call (addr : Nat)
deriving DecidableEq

/-- `tx.to.map_or(TxKind::Create, TxKind::Call)`. -/
def toTxKind : Option Nat → TxKind
  | none => .create
  | some a => .call a

structure TxLegacy where
  chain_id : Option Nat
  nonce : Nat
  gas_price : Nat
  gas_limit : Nat
  recipient : TxKind
  value : Nat
  input : List Nat
deriving DecidableEq

structure TxEip2930 where
  chain_id : Nat
  nonce : Nat
  gas_limit : Nat
  recipient : TxKind
  value : Nat
  input : List Nat
  access_list : List (Nat × List Nat)
  gas_price : Nat
deriving DecidableEq

structure TxEip1559 where
  chain_id : Nat
  nonce : Nat
  max_priority_fee_per_gas : Nat
  max_fee_per_gas : Nat
  gas_limit : Nat
  recipient : TxKind
  value : Nat
  access_list : List (Nat × List Nat)
  input : List Nat
deriving DecidableEq

structure TxEip4844 where
  chain_id : Nat
  nonce : Nat
  max_priority_fee_per_gas : Nat
  max_fee_per_gas : Nat
  gas_limit : Nat
  recipient : TxKind
  value : Nat
  access_list : List (Nat × List Nat)
  input : List Nat
  blob_versioned_hashes : List Nat
  max_fee_per_blob_gas : Nat
deriving DecidableEq

/-- `reth_primitives::Transaction`.  The optimism `Deposit` variant is never
constructed by the conversion (`todo!()`), so it is omitted from the model;
the deposit byte tag is still represented in `TxType`. -/
inductive Transaction where
  | legacy (tx : TxLegacy)
  | eip2930 (tx : TxEip2930)
  | eip1559 (tx : TxEip1559)
  | eip4844 (tx : TxEip4844)
deriving DecidableEq

/-- `reth_primitives::Signature`. -/
structure Signature where
  r : Nat
  s : Nat
  odd_y_parity : Bool
deriving DecidableEq

structure TransactionSigned where
  transaction : Transaction
  signature : Signature
deriving DecidableEq

/-- `TransactionSigned::from_transaction_and_signature` (the derived hash is
not modelled; it is a function of the other two fields). -/
def TransactionSigned.from_transaction_and_signature
    (t : Transaction) (sig : Signature) : TransactionSigned :=
  ⟨t, sig⟩

/-- `alloy_rpc_types::Signature`: `v` is a `U256`, `y_parity` an optional
parity bit. -/
structure RpcSignature where
  r : Nat
  s : Nat
  v : Nat
  y_parity : Option Bool
deriving DecidableEq

/-- The fields of `alloy_rpc_types::Transaction` consulted by the conversion. -/
structure RpcTransaction where
  transaction_type : Option Nat
  signature : Option RpcSignature
  chain_id : Option Nat
  nonce : Nat
  gas_price : Option Nat
  gas : Nat
  max_fee_per_gas : Option Nat
  max_priority_fee_per_gas : Option Nat
  recipient : Option Nat
  value : Nat
  input : List Nat
  access_list : Option (List (Nat × List Nat))
  blob_versioned_hashes : Option (List Nat)
  max_fee_per_blob_gas : Option Nat
deriving DecidableEq

/-- The fields of `alloy_rpc_types::Header` consulted by the conversion. -/
structure RpcHeader where
  base_fee_per_gas : Option Nat
  miner : Nat
  blob_gas_used : Option Nat
  difficulty : Nat
  excess_blob_gas : Option Nat
  extra_data : List Nat
  gas_limit : Nat
  gas_used : Nat
  logs_bloom : Nat
  mix_hash : Option Nat
  nonce : Option Nat
  number : Option Nat
  uncles_hash : Nat
  parent_beacon_block_root : Option Nat
  parent_hash : Nat
  receipts_root : Nat
  state_root : Nat
  timestamp : Nat
  transactions_root : Nat
  withdrawals_root : Option Nat
deriving DecidableEq

/-- `alloy_rpc_types::BlockTransactions`. -/
inductive BlockTransactions where
  | full (txs : List RpcTransaction)
  | hashes (hs : List Nat)
  | uncle
deriving DecidableEq

/-- The fields of `alloy_rpc_types::Block` consulted by the conversion. -/
structure RpcBlock where
  header : RpcHeader
  transactions : BlockTransactions
  withdrawals : Option (List Nat)
deriving DecidableEq

/-- `reth_primitives::Header`, restricted to the fields the conversion sets. -/
structure Header where
  base_fee_per_gas : Option Nat
  beneficiary : Nat
  blob_gas_used : Option Nat
  difficulty : Nat
  excess_blob_gas : Option Nat
  extra_data : List Nat
  gas_limit : Nat
  gas_used : Nat
  logs_bloom : Nat
  mix_hash : Nat
  nonce : Nat
  number : Nat
  ommers_hash : Nat
  parent_beacon_block_root : Option Nat
  parent_hash : Nat
  receipts_root : Nat
  state_root : Nat
  timestamp : Nat
  transactions_root : Nat
  withdrawals_root : Option Nat
deriving DecidableEq

/-- `reth_primitives::Block`. -/
structure Block where
  header : Header
  body : List TransactionSigned
  ommers : List Header
  withdrawals : Option (List Nat)
deriving DecidableEq

/-! ## `alloy_compat.rs` — conversions -/

/-- `Option<U256>.map(try_into u64).transpose()` with the given conversion
error for out-of-range values. -/
def transposeU64 (x : Option Nat) (e : ConversionError) :
    Except ConversionError (Option Nat) :=
  match x with
  | none => .ok none
  | some v => if v < 2 ^ 64 then .ok (some v) else .error e

/-- `U256` to `u64` narrowing with the given conversion error. -/
def u64OfU256 (x : Nat) (e : ConversionError) : Except ConversionError Nat :=
  if x < 2 ^ 64 then .ok x else .error e

/-- `TryFrom<alloy_rpc_types::Header> for Header` (alloy_compat.rs:60-104);
field conversions are attempted in the order the struct literal writes them. -/
def Header.try_from (h : RpcHeader) : Except ConversionError Header := do
  let bf ← transposeU64 h.base_fee_per_gas .baseFeePerGasConversion
  let bgu ← transposeU64 h.blob_gas_used .blobGasUsedConversion
  let ebg ← transposeU64 h.excess_blob_gas .excessBlobGasConversion
  let gl ← u64OfU256 h.gas_limit .gasLimitConversion
  let gu ← u64OfU256 h.gas_used .gasUsedConversion
  let num ← match h.number with
    | none => Except.error ConversionError.missingBlockNumber
    | some n => Except.ok n
  Except.ok
    { base_fee_per_gas := bf
      beneficiary := h.miner
      blob_gas_used := bgu
      difficulty := h.difficulty
      excess_blob_gas := ebg
      extra_data := h.extra_data
      gas_limit := gl
      gas_used := gu
      logs_bloom := h.logs_bloom
      mix_hash := h.mix_hash.getD 0
      nonce := h.nonce.getD 0
      number := num
      ommers_hash := h.uncles_hash
      parent_beacon_block_root := h.parent_beacon_block_root
      parent_hash := h.parent_hash
      receipts_root := h.receipts_root
      state_root := h.state_root
      timestamp := h.timestamp
      transactions_root := h.transactions_root
      withdrawals_root := h.withdrawals_root }

/-- Legacy arm of `TryFrom<alloy_rpc_types::Transaction>` (alloy_compat.rs:118-138). -/
def Transaction.legacyFrom (tx : RpcTransaction) : RResult ConversionError Transaction :=
  if tx.max_fee_per_gas.isSome || tx.max_priority_fee_per_gas.isSome then
    .error (.eip2718Error (.rlpError
      (.custom "EIP-1559 fields are present in a legacy transaction")))
  else
    match tx.gas_price with
    | none => .error .missingGasPrice
    | some gp =>
      if tx.gas < 2 ^ 64 then
        .ok (.legacy
          { chain_id := tx.chain_id
            nonce := tx.nonce
            gas_price := gp
            gas_limit := tx.gas
            recipient := toTxKind tx.recipient
            value := tx.value
            input := tx.input })
      else .error (.eip2718Error (.rlpError .overflow))

/-- EIP-2930 arm (alloy_compat.rs:139-154); fallible fields are taken in the
order the struct literal writes them. -/
def Transaction.eip2930From (tx : RpcTransaction) : RResult ConversionError Transaction :=
  match tx.chain_id with
  | none => .error .missingChainId
  | some cid =>
    if tx.gas < 2 ^ 64 then
      match tx.access_list with
      | none => .error .missingAccessList
      | some al =>
        match tx.gas_price with
        | none => .error .missingGasPrice
        | some gp =>
          .ok (.eip2930
            { chain_id := cid
              nonce := tx.nonce
              gas_limit := tx.gas
              recipient := toTxKind tx.recipient
              value := tx.value
              input := tx.input
              access_list := al
              gas_price := gp })
    else .error (.eip2718Error (.rlpError .overflow))

/-- EIP-1559 arm (alloy_compat.rs:155-175). -/
def Transaction.eip1559From (tx : RpcTransaction) : RResult ConversionError Transaction :=
  match tx.chain_id with
  | none => .error .missingChainId
  | some cid =>
    match tx.max_priority_fee_per_gas with
    | none => .error .missingMaxPriorityFeePerGas
    | some mpf =>
      match tx.max_fee_per_gas with
      | none => .error .missingMaxFeePerGas
      | some mf =>
        if tx.gas < 2 ^ 64 then
          match tx.access_list with
          | none => .error .missingAccessList
          | some al =>
            .ok (.eip1559
              { chain_id := cid
                nonce := tx.nonce
                max_priority_fee_per_gas := mpf
                max_fee_per_gas := mf
                gas_limit := tx.gas
                recipient := toTxKind tx.recipient
                value := tx.value
                access_list := al
                input := tx.input })
        else .error (.eip2718Error (.rlpError .overflow))

/-- EIP-4844 arm (alloy_compat.rs:176-202). -/
def Transaction.eip4844From (tx : RpcTransaction) : RResult ConversionError Transaction :=
  match tx.chain_id with
  | none => .error .missingChainId
  | some cid =>
    match tx.max_priority_fee_per_gas with
    | none => .error .missingMaxPriorityFeePerGas
    | some mpf =>
      match tx.max_fee_per_gas with
      | none => .error .missingMaxFeePerGas
      | some mf =>
        if tx.gas < 2 ^ 64 then
          match tx.access_list with
          | none => .error .missingAccessList
          | some al =>
            match tx.blob_versioned_hashes with
            | none => .error .missingBlobVersionedHashes
            | some bvh =>
              match tx.max_fee_per_blob_gas with
              | none => .error .missingMaxFeePerBlobGas
              | some mfb =>
                .ok (.eip4844
                  { chain_id := cid
                    nonce := tx.nonce
                    max_priority_fee_per_gas := mpf
                    max_fee_per_gas := mf
                    gas_limit := tx.gas
                    recipient := toTxKind tx.recipient
                    value := tx.value
                    access_list := al
                    input := tx.input
                    blob_versioned_hashes := bvh
                    max_fee_per_blob_gas := mfb })
        else .error (.eip2718Error (.rlpError .overflow))

/-- `TryFrom<alloy_rpc_types::Transaction> for Transaction`
(alloy_compat.rs:106-207).  An unknown type byte is the EIP-2718
unexpected-type error; the optimism deposit arm is `todo!()`, i.e. a panic. -/
def Transaction.try_from (tx : RpcTransaction) : RResult ConversionError Transaction :=
  match tx.transaction_type with
  | none => Transaction.legacyFrom tx
  | some b =>
    match txTypeFromByte b with
    | none => .error (.eip2718Error (.unexpectedType b))
    | some .legacy => Transaction.legacyFrom tx
    | some .eip2930 => Transaction.eip2930From tx
    | some .eip1559 => Transaction.eip1559From tx
    | some .eip4844 => Transaction.eip4844From tx
    | some .deposit => .panicked

/-- The per-transaction closure of `TryFrom<alloy_rpc_types::Block>`
(alloy_compat.rs:23-41): extract the signature, compute
`recovery_id = if v > 1 then v - 37 else v` (the `U256` subtraction panics on
underflow under debug-assertion semantics), convert the transaction and attach
the signature, defaulting the parity bit to `recovery_id == 1`. -/
def RpcTransaction.into_signed (tx : RpcTransaction) :
    RResult ConversionError TransactionSigned :=
  match tx.signature with
  | none => .error .missingSignature
  | some sig =>
    if 1 < sig.v then
      if sig.v < 37 then
        .panicked
      else
        (Transaction.try_from tx).bind fun t =>
          .ok (TransactionSigned.from_transaction_and_signature t
            { r := sig.r, s := sig.s, odd_y_parity := sig.y_parity.getD (sig.v - 37 == 1) })
    else
      (Transaction.try_from tx).bind fun t =>
        .ok (TransactionSigned.from_transaction_and_signature t
          { r := sig.r, s := sig.s, odd_y_parity := sig.y_parity.getD (sig.v == 1) })

/-- `transactions.into_iter().map(..).collect::<Result<Vec<_>, _>>()`:
conversion stops at the first transaction that errors or panics. -/
def collectSigned : List RpcTransaction → RResult ConversionError (List TransactionSigned)
  | [] => .ok []
  | tx :: rest =>
    (tx.into_signed).bind fun t =>
      (collectSigned rest).bind fun ts => .ok (t :: ts)

/-- `TryFrom<alloy_rpc_types::Block> for Block` (alloy_compat.rs:11-58).  The
body is computed first; a hashes-only or uncle transaction list returns
`MissingFullTransactions` before anything else; the header is converted after
the body. -/
def Block.try_from (b : RpcBlock) : RResult ConversionError Block :=
  match b.transactions with
  | .hashes _ => .error .missingFullTransactions
  | .uncle => .error .missingFullTransactions
  | .full txs =>
    (collectSigned txs).bind fun body =>
      match Header.try_from b.header with
      | .error e => .error e
      | .ok h => .ok { header := h, body := body, ommers := [], withdrawals := b.withdrawals }

/-! ## `testing/zkvm-script/src/main.rs` — witness data model -/

/-- `reth_primitives::Account` as carried by an account proof: `info` is
`Some` for an inclusion proof and `None` for an absence proof, and
`bytecode_hash` is `Some` exactly when the account declares a code hash. -/
structure Account where
  nonce : Nat
  balance : Nat
  bytecode_hash : Option Nat
deriving DecidableEq

/-- `reth_primitives::trie::AccountProof`: the claimed account record (absent
for an absence proof), the proof nodes, and the storage slots proven for the
account. -/
structure AccountProof where
  address : Nat
  info : Option Account
  proof : List (List Nat)
  storage_root : Nat
  storage_proofs : List (Nat × Nat)
deriving DecidableEq

/-- `FullAccountProof` (main.rs:33-37): an account's inclusion proof plus its
bundled bytecode. -/
structure FullAccountProof where
  account_proof : AccountProof
  code : List Nat
deriving DecidableEq

/-- Error kinds of `FullAccountProof::verify` (the source reports them as
`eyre` errors: the propagated proof-verification error and the
"Code hash does not match the code" error). -/
inductive VerifyError where
  | proofInvalid
  | codeHashMismatch
deriving DecidableEq

/-- `FullAccountProof::verify` (main.rs:40-49), parametric in the external
Merkle-Patricia-Trie proof check `mpt` and in `keccak256`:
first `self.account_proof.verify(state_root)?`, then
`self.account_proof.info.unwrap().bytecode_hash.unwrap() != keccak256(code)`.
The two `unwrap()` calls panic when the account record or its declared code
hash is absent. -/
def FullAccountProof.verify (mpt : AccountProof → Nat → Bool)
    (keccak : List Nat → Nat) (p : FullAccountProof) (state_root : Nat) :
    RResult VerifyError Unit :=
  if mpt p.account_proof state_root then
    let code_hash := keccak p.code
    match p.account_proof.info with
    | none => .panicked
    | some info =>
      match info.bytecode_hash with
      | none => .panicked
      | some declared =>
        if declared ≠ code_hash then .error .codeHashMismatch
        else .ok ()
  else .error .proofInvalid

/-- `SP1Input` (main.rs:20-31): the sealed execution input handed to the
zkVM program.  The two `HashMap`s are modelled as association lists with
unique keys. -/
structure SP1Input where
  prev_block : Block
  block : Block
  address_to_proof : List (Nat × FullAccountProof)
  block_hashes : List (Nat × Nat)

/-- First-match association-list lookup (the embedding of `HashMap::get`). -/
def assocGet {α : Type} (k : Nat) : List (Nat × α) → Option α
  | [] => none
  | (k', v) :: rest => if k = k' then some v else assocGet k rest

/-! ## Stores

`provider_db.rs` (`RpcDb`, the NetworkBackedStore) and `witness.rs`
(`WitnessDb`, the SealedWitnessStore) are declared as modules of the crate but
their files are not part of the sources under verification; the parts of their
behaviour the protocol depends on are modelled from the spec. -/

/-- Modelled from the spec: `provider_db.rs` (`RpcDb`) is missing from the
sources.  Per §4.2/§4.4 the network-backed store is "pinned at
`target_block.number - 1` with state root = parent's committed state root";
`new` records exactly the pinning arguments visible at the call site
(main.rs:91-92).  The provider handle and the accumulating proof cache are
not needed by any claim and are omitted. -/
structure RpcDb where
  block_number : Nat
  state_root : Nat
deriving DecidableEq

def RpcDb.new (bn : Nat) (root : Nat) : RpcDb := ⟨bn, root⟩

/-- Modelled from the spec: `witness.rs` is missing from the sources.  Per
§4.4 step 2, sealing the witness set calls `verify(parent_state_root)` on
every collected `FullAccountProof` and "any failure aborts the whole protocol
with that witness's specific error kind". -/
def sealWitnesses (mpt : AccountProof → Nat → Bool) (keccak : List Nat → Nat)
    (root : Nat) : List (Nat × FullAccountProof) → RResult VerifyError Unit
  | [] => .ok ()
  | (_, p) :: rest =>
    match FullAccountProof.verify mpt keccak p root with
    | .ok _ => sealWitnesses mpt keccak root rest
    | .error e => .error e
    | .panicked => .panicked

/-- Modelled from the spec: `witness.rs` (`WitnessDb`, the SealedWitnessStore)
is missing from the sources.  The store is a read-only view over its
`SP1Input` (§4.3). -/
structure WitnessDb where
  input : SP1Input

/-- Modelled from the spec: `WitnessDb::new(sp1_input)` (called at
main.rs:138 and main.rs:173) seals the input, verifying every witness against
the parent block's committed state root before any query is served (§4.4
step 2). -/
def WitnessDb.new (mpt : AccountProof → Nat → Bool) (keccak : List Nat → Nat)
    (inp : SP1Input) : RResult VerifyError WitnessDb :=
  match sealWitnesses mpt keccak inp.prev_block.header.state_root inp.address_to_proof with
  | .ok _ => .ok ⟨inp⟩
  | .error e => .error e
  | .panicked => .panicked

/-- The sealed store's error: per §4.3/§7 "any miss is `MissingWitnessData`". -/
inductive WitnessDbError where
  | missingWitnessData
deriving DecidableEq

/-- Modelled from the spec: `fetch_account` of the sealed store looks up the
pre-populated address map; a miss is a hard `MissingWitnessData` failure
(§4.3). -/
def WitnessDb.fetch_account (db : WitnessDb) (addr : Nat) :
    Except WitnessDbError (Option Account) :=
  match assocGet addr db.input.address_to_proof with
  | some p => .ok p.account_proof.info
  | none => .error .missingWitnessData

/-- Modelled from the spec: `fetch_storage` of the sealed store; a miss of the
address or of the slot is `MissingWitnessData` (§4.3). -/
def WitnessDb.fetch_storage (db : WitnessDb) (addr slot : Nat) :
    Except WitnessDbError Nat :=
  match assocGet addr db.input.address_to_proof with
  | none => .error .missingWitnessData
  | some p =>
    match assocGet slot p.account_proof.storage_proofs with
    | none => .error .missingWitnessData
    | some v => .ok v

/-- Modelled from the spec: `fetch_block_hash` of the sealed store; a miss is
`MissingWitnessData` (§4.3). -/
def WitnessDb.fetch_block_hash (db : WitnessDb) (n : Nat) :
    Except WitnessDbError Nat :=
  match assocGet n db.input.block_hashes with
  | none => .error .missingWitnessData
  | some h => .ok h

/-! ## The STF verification protocol (`get_input` / `verify_stf`) -/

/-- `reth_interfaces::executor::BlockValidationError`, restricted to the
variant the pipeline produces. -/
inductive BlockValidationError where
  | senderRecoveryError
deriving DecidableEq

/-- An opaque executor-native execution error. -/
inductive ExecError where
  | native (code : Nat)
deriving DecidableEq

/-- `BlockExecutionOutput { state, receipts, .. }`: the account/storage deltas
and the receipts, both kept abstract. -/
structure ExecOutput where
  state : List (Nat × Nat)
  receipts : List Nat
deriving DecidableEq

/-- The error kinds `get_input`/`verify_stf` surface (as `eyre` errors in the
source).  There is no replay-mismatch kind: the source defines none. -/
inductive ProtocolError where
  | blockNotFound
  | prevBlockNotFound
  | conversion (e : ConversionError)
  | validation (e : BlockValidationError)
  | witnessError (e : VerifyError)
  | execution (e : ExecError)
deriving DecidableEq

/-- The external collaborators of the pipeline: the RPC provider (a block per
number, `none` when the block is not found), the MPT proof check, keccak256,
sender recovery (`with_recovered_senders`, `none` on failure), the block
executor backed by the network store (discovery) and by the sealed store
(replay), and `RpcDb::get_sp1_input` (in the missing `provider_db.rs`), which
assembles the `SP1Input` from the recorded proof material. -/
structure Oracles where
  provider : Nat → Option RpcBlock
  mpt : AccountProof → Nat → Bool
  keccak : List Nat → Nat
  recoverSenders : Block → Option (List Nat)
  execDisc : Block → List Nat → Nat → Except ExecError ExecOutput
  execReplay : Block → List Nat → Nat → Except ExecError ExecOutput
  sp1InputOf : RpcDb → Block → Block → SP1Input

/-- `merkle_block_td` (main.rs:58): hardcoded to zero. -/
def merkle_block_td : Nat := 0

/-- Fetch a block by number and convert it
(`provider.get_block_by_number(..).ok_or(..)` + `RethBlock::try_from`). -/
def fetchBlock (provider : Nat → Option RpcBlock) (n : Nat) (e : ProtocolError) :
    RResult ProtocolError Block :=
  match provider n with
  | none => .error e
  | some ab => (Block.try_from ab).mapError ProtocolError.conversion

/-- The discovery setup of `get_input` (main.rs:61-94): fetch and convert the
target block, fetch and convert the previous block, and construct the
network-backed store pinned at `block_number - 1` with the previous block's
committed state root. -/
def discoveryStore (provider : Nat → Option RpcBlock) (bn : Nat) :
    RResult ProtocolError (Block × Block × RpcDb) :=
  (fetchBlock provider bn .blockNotFound).bind fun blk =>
  (fetchBlock provider (bn - 1) .prevBlockNotFound).bind fun prev =>
  .ok (blk, prev, RpcDb.new (bn - 1) prev.header.state_root)

/-- One executor pass (main.rs:105-114 / 143-152 / 184-193):
`block.with_recovered_senders().ok_or(BlockValidationError::SenderRecoveryError)?`
followed by `executor.execute((&block, merkle_block_td + difficulty).into())?`. -/
def execPass (exec : Block → List Nat → Nat → Except ExecError ExecOutput)
    (recover : Block → Option (List Nat)) (blk : Block) :
    RResult ProtocolError ExecOutput :=
  match recover blk with
  | none => .error (.validation .senderRecoveryError)
  | some senders =>
    match exec blk senders (merkle_block_td + blk.header.difficulty) with
    | .error e => .error (.execution e)
    | .ok out => .ok out

/-- `get_input` (main.rs:52-156): discovery setup, discovery execution (output
bound and dropped), `get_sp1_input`, sealing via `WitnessDb::new`, replay
execution (output bound and dropped), and finally `Ok(sp1_input)`.  The two
executor outputs are never compared: the source has no comparison and no
replay-mismatch error. -/
def getInput (o : Oracles) (bn : Nat) : RResult ProtocolError SP1Input :=
  (discoveryStore o.provider bn).bind fun x =>
  match x with
  | (blk, prev, db) =>
    (execPass o.execDisc o.recoverSenders blk).bind fun _discOut =>
    let inp := o.sp1InputOf db prev blk
    ((WitnessDb.new o.mpt o.keccak inp).mapError ProtocolError.witnessError).bind fun _wdb =>
    (execPass o.execReplay o.recoverSenders blk).bind fun _replayOut =>
    .ok inp

/-- `verify_stf` (main.rs:159-202): seal the input into a `WitnessDb`, run the
replay execution, bind the resulting state and receipts into a bundle, and
return `Ok(())` without inspecting them. -/
def verifyStf (o : Oracles) (inp : SP1Input) : RResult ProtocolError Unit :=
  ((WitnessDb.new o.mpt o.keccak inp).mapError ProtocolError.witnessError).bind fun _wdb =>
  (execPass o.execReplay o.recoverSenders inp.block).bind fun _out =>
  .ok ()

/-! ## Concrete instances

Small concrete oracles and inputs used to evaluate the embedded code at
specific points.  The hash oracle used here is `List.length` — any computable
function works, since the code treats keccak256 as an opaque hash. -/

/-- A convertible RPC header with the given block number and state root; all
other fields are neutral values. -/
def mkRpcHeader (n root : Nat) : RpcHeader :=
  { base_fee_per_gas := none
    miner := 0
    blob_gas_used := none
    difficulty := 0
    excess_blob_gas := none
    extra_data := []
    gas_limit := 0
    gas_used := 0
    logs_bloom := 0
    mix_hash := none
    nonce := none
    number := some n
    uncles_hash := 0
    parent_beacon_block_root := none
    parent_hash := 0
    receipts_root := 0
    state_root := root
    timestamp := 0
    transactions_root := 0
    withdrawals_root := none }

/-- A convertible RPC block with no transactions. -/
def cRpcBlock (n root : Nat) : RpcBlock :=
  { header := mkRpcHeader n root, transactions := .full [], withdrawals := none }

/-- The converted form of `cRpcBlock n root`. -/
def mkBlockLit (n root : Nat) : Block :=
  { header :=
      { base_fee_per_gas := none
        beneficiary := 0
        blob_gas_used := none
        difficulty := 0
        excess_blob_gas := none
        extra_data := []
        gas_limit := 0
        gas_used := 0
        logs_bloom := 0
        mix_hash := 0
        nonce := 0
        number := n
        ommers_hash := 0
        parent_beacon_block_root := none
        parent_hash := 0
        receipts_root := 0
        state_root := root
        timestamp := 0
        transactions_root := 0
        withdrawals_root := none }
    body := []
    ommers := []
    withdrawals := none }

/-- A provider serving block 1 (state root 9) and its parent block 0
(state root 5). -/
def cProvider : Nat → Option RpcBlock := fun n =>
  if n = 1 then some (cRpcBlock 1 9)
  else if n = 0 then some (cRpcBlock 0 5)
  else none

/-- A witness whose declared code hash (2) matches the hash oracle
(`List.length`) of its bytecode `[1, 2]`. -/
def cGoodProof : FullAccountProof :=
  { account_proof :=
      { address := 7
        info := some { nonce := 0, balance := 0, bytecode_hash := some 2 }
        proof := [[0]]
        storage_root := 0
        storage_proofs := [] }
    code := [1, 2] }

/-- A witness whose declared code hash (3) differs from the hash oracle value
(2) of its bytecode `[1, 2]`. -/
def cBadProof : FullAccountProof :=
  { account_proof :=
      { address := 7
        info := some { nonce := 0, balance := 0, bytecode_hash := some 3 }
        proof := [[0]]
        storage_root := 0
        storage_proofs := [] }
    code := [1, 2] }

/-- An absence proof: the account does not exist, so no account record is
present. -/
def cAbsenceProof : FullAccountProof :=
  { account_proof :=
      { address := 3
        info := none
        proof := [[0]]
        storage_root := 0
        storage_proofs := [] }
    code := [] }

/-- Discovery-pass executor output used by the concrete oracles. -/
def cDiscOut : ExecOutput := { state := [(1, 1)], receipts := [] }

/-- Replay-pass executor output used by the concrete oracles — deliberately
different from `cDiscOut`. -/
def cReplayOut : ExecOutput := { state := [], receipts := [] }

/-- An input assembly recording no witnesses and no block hashes. -/
def emptyInputOf : RpcDb → Block → Block → SP1Input := fun _ prev blk =>
  { prev_block := prev, block := blk, address_to_proof := [], block_hashes := [] }

/-- Baseline concrete oracles: everything succeeds, the MPT check accepts,
and the two executor passes return different deltas. -/
def oBase : Oracles :=
  { provider := cProvider
    mpt := fun _ _ => true
    keccak := fun l => l.length
    recoverSenders := fun _ => some []
    execDisc := fun _ _ _ => .ok cDiscOut
    execReplay := fun _ _ _ => .ok cReplayOut
    sp1InputOf := emptyInputOf }

/-- Oracles whose discovery pass collects one valid witness. -/
def oGood : Oracles :=
  { oBase with sp1InputOf := fun _ prev blk =>
      { prev_block := prev, block := blk,
        address_to_proof := [(7, cGoodProof)], block_hashes := [] } }

/-- Oracles whose discovery pass collects one witness with a wrong code
hash. -/
def oBadSeal : Oracles :=
  { oBase with sp1InputOf := fun _ prev blk =>
      { prev_block := prev, block := blk,
        address_to_proof := [(7, cBadProof)], block_hashes := [] } }

/-- Oracles for which sender recovery always fails. -/
def oNoSenders : Oracles :=
  { oBase with recoverSenders := fun _ => none }

/-- A sealed input with no witnesses and no block hashes. -/
def cEmptyInput : SP1Input :=
  { prev_block := mkBlockLit 0 5, block := mkBlockLit 1 9,
    address_to_proof := [], block_hashes := [] }

/-- The sealed input `oGood`'s discovery pass produces. -/
def cInpGood : SP1Input :=
  { prev_block := mkBlockLit 0 5, block := mkBlockLit 1 9,
    address_to_proof := [(7, cGoodProof)], block_hashes := [] }

/-- A sealed store holding exactly one witness (address 7, no storage slots)
and no block hashes. -/
def cStoreDb : WitnessDb := ⟨cInpGood⟩

/-- An RPC transaction with the optimism deposit type byte `0x7E = 126`. -/
def cDepositTx : RpcTransaction :=
  { transaction_type := some 126
    signature := some { r := 0, s := 0, v := 1, y_parity := some false }
    chain_id := none
    nonce := 0
    gas_price := some 1
    gas := 0
    max_fee_per_gas := none
    max_priority_fee_per_gas := none
    recipient := none
    value := 0
    input := []
    access_list := none
    blob_versioned_hashes := none
    max_fee_per_blob_gas := none }

/-- A legacy RPC transaction with its signature missing. -/
def cTxNoSig : RpcTransaction :=
  { transaction_type := none
    signature := none
    chain_id := none
    nonce := 0
    gas_price := some 1
    gas := 0
    max_fee_per_gas := none
    max_priority_fee_per_gas := none
    recipient := none
    value := 0
    input := []
    access_list := none
    blob_versioned_hashes := none
    max_fee_per_blob_gas := none }

/-- A legacy RPC transaction with a pre-EIP-155 `v = 27` and `y_parity`
absent. -/
def cTx27 : RpcTransaction :=
  { transaction_type := none
    signature := some { r := 1, s := 1, v := 27, y_parity := none }
    chain_id := none
    nonce := 0
    gas_price := some 1
    gas := 0
    max_fee_per_gas := none
    max_priority_fee_per_gas := none
    recipient := some 4
    value := 0
    input := []
    access_list := none
    blob_versioned_hashes := none
    max_fee_per_blob_gas := none }

/-- A block containing a `v = 27` transaction preceded by a transaction whose
signature is missing. -/
def cBadBlock : RpcBlock :=
  { header := mkRpcHeader 1 9, transactions := .full [cTxNoSig, cTx27],
    withdrawals := none }

/-- A block whose first full transaction has `v = 27` and `y_parity` absent. -/
def cPanicBlock : RpcBlock :=
  { header := mkRpcHeader 1 9, transactions := .full [cTx27], withdrawals := none }

/-- A block carrying transaction hashes only. -/
def cHashesBlock : RpcBlock :=
  { header := mkRpcHeader 1 9, transactions := .hashes [1], withdrawals := none }

/-- A block in the uncle representation. -/
def cUncleBlock : RpcBlock :=
  { header := mkRpcHeader 1 9, transactions := .uncle, withdrawals := none }

/-! ## Helper lemmas -/

@[simp] theorem RResult.bind_ok {ε α β : Type} (a : α) (f : α → RResult ε β) :
    RResult.bind (.ok a) f = f a := rfl

@[simp] theorem RResult.bind_error {ε α β : Type} (e : ε) (f : α → RResult ε β) :
    RResult.bind (.error e) f = .error e := rfl

@[simp] theorem RResult.bind_panicked {ε α β : Type} (f : α → RResult ε β) :
    RResult.bind .panicked f = .panicked := rfl

@[simp] theorem RResult.mapError_ok {ε ε' α : Type} (f : ε → ε') (a : α) :
    RResult.mapError f (.ok a) = .ok a := rfl

@[simp] theorem RResult.mapError_error {ε ε' α : Type} (f : ε → ε') (e : ε) :
    RResult.mapError f (.error e : RResult ε α) = .error (f e) := rfl

@[simp] theorem RResult.mapError_panicked {ε ε' α : Type} (f : ε → ε') :
    RResult.mapError f (.panicked : RResult ε α) = .panicked := rfl

theorem sealWitnesses_ok_mem (mpt : AccountProof → Nat → Bool) (keccak : List Nat → Nat)
    (root : Nat) (l : List (Nat × FullAccountProof)) :
    sealWitnesses mpt keccak root l = .ok () →
    ∀ a p, (a, p) ∈ l → FullAccountProof.verify mpt keccak p root = .ok () := by
  induction l with
  | nil => intro _ a p hmem; exact absurd hmem (List.not_mem_nil _)
  | cons hd tl ih =>
    obtain ⟨b, q⟩ := hd
    intro h a p hmem
    unfold sealWitnesses at h
    cases hv : FullAccountProof.verify mpt keccak q root with
    | ok u =>
      rw [hv] at h
      rcases List.mem_cons.mp hmem with heq | hmem'
      · obtain ⟨rfl, rfl⟩ := Prod.mk.injEq a p b q ▸ heq
        cases u
        exact hv
      · exact ih h a p hmem'
    | error e => rw [hv] at h; exact nomatch h
    | panicked => rw [hv] at h; exact nomatch h

theorem sealWitnesses_error_of_split (mpt : AccountProof → Nat → Bool)
    (keccak : List Nat → Nat) (root : Nat) :
    ∀ (pre : List (Nat × FullAccountProof)) (a : Nat) (p : FullAccountProof)
      (rest : List (Nat × FullAccountProof)) (e : VerifyError),
      (∀ b q, (b, q) ∈ pre → FullAccountProof.verify mpt keccak q root = .ok ()) →
      FullAccountProof.verify mpt keccak p root = .error e →
      sealWitnesses mpt keccak root (pre ++ (a, p) :: rest) = .error e
  | [], a, p, rest, e, _, hbad => by
    simp [sealWitnesses, hbad]
  | (b, q) :: tl, a, p, rest, e, hpre, hbad => by
    have hq := hpre b q (List.mem_cons_self _ _)
    have ih := sealWitnesses_error_of_split mpt keccak root tl a p rest e
      (fun c r hm => hpre c r (List.mem_cons_of_mem _ hm)) hbad
    simp [sealWitnesses, hq, ih]

theorem collectSigned_panicked_of_prefix_ok :
    ∀ (pre rest : List RpcTransaction) (tx : RpcTransaction),
      (∀ t ∈ pre, ∃ out, RpcTransaction.into_signed t = RResult.ok out) →
      RpcTransaction.into_signed tx = .panicked →
      collectSigned (pre ++ tx :: rest) = .panicked
  | [], rest, tx, _, htx => by simp [collectSigned, htx]
  | hd :: tl, rest, tx, hpre, htx => by
    obtain ⟨out, hout⟩ := hpre hd (List.mem_cons_self _ _)
    have ih := collectSigned_panicked_of_prefix_ok tl rest tx
      (fun t ht => hpre t (List.mem_cons_of_mem _ ht)) htx
    simp [collectSigned, hout, ih]

theorem getInput_eq (o : Oracles) (bn : Nat) (blk prev : Block) (db : RpcDb)
    (hd : discoveryStore o.provider bn = .ok (blk, prev, db)) :
    getInput o bn =
      (execPass o.execDisc o.recoverSenders blk).bind (fun _ =>
        ((WitnessDb.new o.mpt o.keccak (o.sp1InputOf db prev blk)).mapError
            ProtocolError.witnessError).bind (fun _ =>
          (execPass o.execReplay o.recoverSenders blk).bind (fun _ =>
            .ok (o.sp1InputOf db prev blk)))) := by
  unfold getInput
  rw [hd, RResult.bind_ok]

/-! ## Claims -/

/-- Claim C3: for every `FullAccountProof` whose account record declares a
code hash and whose inclusion proof verifies against the given state root,
`verify` succeeds if and only if the hash of the bundled bytecode equals the
declared code hash, and a differing hash is rejected with
`CodeHashMismatch`. -/
theorem verify_code_hash_iff (mpt : AccountProof → Nat → Bool)
    (keccak : List Nat → Nat) (p : FullAccountProof) (root : Nat)
    (info : Account) (declared : Nat)
    (hinfo : p.account_proof.info = some info)
    (hdecl : info.bytecode_hash = some declared)
    (hmpt : mpt p.account_proof root = true) :
    (FullAccountProof.verify mpt keccak p root = .ok () ↔ keccak p.code = declared) ∧
    (keccak p.code ≠ declared →
      FullAccountProof.verify mpt keccak p root = .error .codeHashMismatch) := by
  by_cases hcd : declared = keccak p.code
  · simp [FullAccountProof.verify, hmpt, hinfo, hdecl, hcd]
  · constructor
    · simp [FullAccountProof.verify, hmpt, hinfo, hdecl, hcd]
      exact fun h => absurd h.symm hcd
    · intro _
      simp [FullAccountProof.verify, hmpt, hinfo, hdecl, hcd]

/-- Witness for C3: a matching witness is accepted and a witness whose
declared hash (3) differs from the bytecode hash (2) is rejected with
`CodeHashMismatch`. -/
theorem verify_code_hash_iff_witness :
    FullAccountProof.verify (fun _ _ => true) (fun l => l.length) cGoodProof 5 = .ok () ∧
    FullAccountProof.verify (fun _ _ => true) (fun l => l.length) cBadProof 5 =
      .error .codeHashMismatch :=
  ⟨(verify_code_hash_iff (fun _ _ => true) (fun l => l.length) cGoodProof 5
      { nonce := 0, balance := 0, bytecode_hash := some 2 } 2 rfl rfl rfl).1.mpr rfl,
   (verify_code_hash_iff (fun _ _ => true) (fun l => l.length) cBadProof 5
      { nonce := 0, balance := 0, bytecode_hash := some 3 } 3 rfl rfl rfl).2 (by decide)⟩

/-- Claim C4 (code bug): the claim says `verify` skips the code-hash check
for an absence proof and returns an ordinary success-or-error result, but the
code unconditionally calls `self.account_proof.info.unwrap()` (main.rs:45),
which panics when the account record is absent: the evaluation below shows
the panic outcome on a concrete absence proof whose Merkle proof verifies. -/
theorem absence_proof_verify_panics :
    FullAccountProof.verify (fun _ _ => true) (fun l => l.length) cAbsenceProof 5 =
      .panicked := rfl

/-- Claim C8: the conversion of an RPC transaction whose type byte is the
optimism deposit tag hits `todo!()` (alloy_compat.rs:204): it panics, never
returning a `Transaction` value and never returning a typed
unsupported-variant error. -/
theorem deposit_tx_conversion_panics (tx : RpcTransaction) (b : Nat)
    (htype : tx.transaction_type = some b)
    (hdep : txTypeFromByte b = some TxType.deposit) :
    Transaction.try_from tx = RResult.panicked := by
  unfold Transaction.try_from
  simp only [htype, hdep]

/-- Witness for C8: the concrete deposit-typed transaction panics. -/
theorem deposit_tx_conversion_panics_witness :
    Transaction.try_from cDepositTx = RResult.panicked :=
  deposit_tx_conversion_panics cDepositTx 126 rfl rfl

/-- Claim C9: converting an RPC block whose transactions field carries only
hashes, or is the uncle variant, returns `MissingFullTransactions`; no
`Block` (with an empty or partial body) is ever produced. -/
theorem hashes_only_block_conversion_fails (b : RpcBlock)
    (h : (∃ hs, b.transactions = BlockTransactions.hashes hs) ∨
      b.transactions = BlockTransactions.uncle) :
    Block.try_from b = RResult.error ConversionError.missingFullTransactions := by
  unfold Block.try_from
  rcases h with ⟨hs, h⟩ | h <;> rw [h]

/-- Witness for C9: a hashes-only block and an uncle block both fail with
`MissingFullTransactions`. -/
theorem hashes_only_block_conversion_fails_witness :
    Block.try_from cHashesBlock = RResult.error ConversionError.missingFullTransactions ∧
    Block.try_from cUncleBlock = RResult.error ConversionError.missingFullTransactions :=
  ⟨hashes_only_block_conversion_fails cHashesBlock (Or.inl ⟨[1], rfl⟩),
   hashes_only_block_conversion_fails cUncleBlock (Or.inr rfl)⟩

/-- Counterexample for C10: `cBadBlock` contains a full transaction whose
signature has `y_parity` absent and `v = 27`, yet its conversion does not
reach the `v - 37` underflow: the preceding transaction's missing signature
makes the collection stop with `MissingSignature` first, so the conversion is
defined (no panic) at this block, refuting the claim's universal
quantification over blocks merely containing such a transaction. -/
theorem low_v_underflow_claim_counterexample :
    (∃ txs, cBadBlock.transactions = BlockTransactions.full txs ∧ cTx27 ∈ txs ∧
      ∃ sig, cTx27.signature = some sig ∧ sig.y_parity = none ∧
        1 < sig.v ∧ sig.v < 37) ∧
    Block.try_from cBadBlock = RResult.error ConversionError.missingSignature ∧
    Block.try_from cBadBlock ≠ RResult.panicked :=
  ⟨⟨[cTxNoSig, cTx27], rfl, List.Mem.tail _ (List.Mem.head _),
    { r := 1, s := 1, v := 27, y_parity := none }, rfl, rfl, by decide, by decide⟩,
   rfl, by decide⟩

/-- Claim C10 (amended): whenever such a transaction is actually reached —
every transaction before it converts successfully — the recovery-id
computation `signature.v - 37` underflows and the conversion panics
(debug-assertion semantics of the `U256` subtraction), so the block
conversion is not a total function. -/
theorem low_v_underflow_panics (hdr : RpcHeader) (w : Option (List Nat))
    (pre rest : List RpcTransaction) (tx : RpcTransaction) (sig : RpcSignature)
    (hpre : ∀ t ∈ pre, ∃ out, RpcTransaction.into_signed t = RResult.ok out)
    (hsig : tx.signature = some sig) (_hyp : sig.y_parity = none)
    (h1 : 1 < sig.v) (h37 : sig.v < 37) :
    Block.try_from
      { header := hdr, transactions := .full (pre ++ tx :: rest), withdrawals := w } =
      RResult.panicked := by
  have htx : RpcTransaction.into_signed tx = .panicked := by
    unfold RpcTransaction.into_signed
    rw [hsig]
    simp [h1, h37]
  have hcol := collectSigned_panicked_of_prefix_ok pre rest tx hpre htx
  simp [Block.try_from, hcol]

/-- Witness for C10 (amended): the conversion of a block whose first full
transaction has `v = 27` and `y_parity` absent panics. -/
theorem low_v_underflow_panics_witness :
    Block.try_from cPanicBlock = RResult.panicked :=
  low_v_underflow_panics (mkRpcHeader 1 9) none [] [] cTx27
    { r := 1, s := 1, v := 27, y_parity := none }
    (fun t ht => absurd ht (List.not_mem_nil _)) rfl rfl (by decide) (by decide)

/-- Claim C1: (success direction) a sealed input returned by `get_input` only
holds witnesses each of which `verify`-d successfully against the parent
state root; (failure direction) if the witness set collected by discovery
contains a witness whose verification fails with error kind `e` — the
witnesses before it verifying fine — the whole protocol aborts with exactly
that error kind, regardless of the replay executor. -/
theorem stf_seal_verifies_before_replay (o : Oracles) (bn : Nat) :
    (∀ inp, getInput o bn = .ok inp →
      ∀ a p, (a, p) ∈ inp.address_to_proof →
        FullAccountProof.verify o.mpt o.keccak p
          inp.prev_block.header.state_root = .ok ()) ∧
    (∀ blk prev db out pre a p rest e,
      discoveryStore o.provider bn = .ok (blk, prev, db) →
      execPass o.execDisc o.recoverSenders blk = .ok out →
      (o.sp1InputOf db prev blk).address_to_proof = pre ++ (a, p) :: rest →
      (∀ b q, (b, q) ∈ pre →
        FullAccountProof.verify o.mpt o.keccak q
          (o.sp1InputOf db prev blk).prev_block.header.state_root = .ok ()) →
      FullAccountProof.verify o.mpt o.keccak p
        (o.sp1InputOf db prev blk).prev_block.header.state_root = .error e →
      getInput o bn = .error (.witnessError e)) := by
  constructor
  · intro inp h a p hmem
    cases hd : discoveryStore o.provider bn with
    | error e => unfold getInput at h; rw [hd, RResult.bind_error] at h; exact nomatch h
    | panicked => unfold getInput at h; rw [hd, RResult.bind_panicked] at h; exact nomatch h
    | ok x =>
      obtain ⟨blk, prev, db⟩ := x
      rw [getInput_eq o bn blk prev db hd] at h
      cases he : execPass o.execDisc o.recoverSenders blk with
      | error e => rw [he, RResult.bind_error] at h; exact nomatch h
      | panicked => rw [he, RResult.bind_panicked] at h; exact nomatch h
      | ok out =>
        rw [he, RResult.bind_ok] at h
        cases hw : WitnessDb.new o.mpt o.keccak (o.sp1InputOf db prev blk) with
        | error e =>
          rw [hw, RResult.mapError_error, RResult.bind_error] at h; exact nomatch h
        | panicked =>
          rw [hw, RResult.mapError_panicked, RResult.bind_panicked] at h; exact nomatch h
        | ok wdb =>
          rw [hw, RResult.mapError_ok, RResult.bind_ok] at h
          cases hr : execPass o.execReplay o.recoverSenders blk with
          | error e => rw [hr, RResult.bind_error] at h; exact nomatch h
          | panicked => rw [hr, RResult.bind_panicked] at h; exact nomatch h
          | ok out2 =>
            rw [hr, RResult.bind_ok] at h
            cases h
            unfold WitnessDb.new at hw
            cases hs : sealWitnesses o.mpt o.keccak
                (o.sp1InputOf db prev blk).prev_block.header.state_root
                (o.sp1InputOf db prev blk).address_to_proof with
            | ok u =>
              cases u
              exact sealWitnesses_ok_mem o.mpt o.keccak _ _ hs a p hmem
            | error e => rw [hs] at hw; exact nomatch hw
            | panicked => rw [hs] at hw; exact nomatch hw
  · intro blk prev db out pre a p rest e hd he hsplit hpre hbad
    rw [getInput_eq o bn blk prev db hd, he, RResult.bind_ok]
    have hseal : sealWitnesses o.mpt o.keccak
        (o.sp1InputOf db prev blk).prev_block.header.state_root
        (o.sp1InputOf db prev blk).address_to_proof = .error e := by
      rw [hsplit]
      exact sealWitnesses_error_of_split o.mpt o.keccak _ pre a p rest e hpre hbad
    unfold WitnessDb.new
    rw [hseal, RResult.mapError_error, RResult.bind_error]

/-- Witness for C1: with one code-hash-mismatching witness the protocol
aborts with `CodeHashMismatch`; with one valid witness `get_input` succeeds
and the admitted witness verified against the parent state root. -/
theorem stf_seal_verifies_before_replay_witness :
    getInput oBadSeal 1 = RResult.error (.witnessError .codeHashMismatch) ∧
    getInput oGood 1 = RResult.ok cInpGood ∧
    FullAccountProof.verify oGood.mpt oGood.keccak cGoodProof
      cInpGood.prev_block.header.state_root = RResult.ok () :=
  ⟨(stf_seal_verifies_before_replay oBadSeal 1).2 _ _ _ cDiscOut [] 7 cBadProof []
      .codeHashMismatch rfl rfl rfl (fun _ _ hq => absurd hq (List.not_mem_nil _)) rfl,
   rfl,
   (stf_seal_verifies_before_replay oGood 1).1 cInpGood rfl 7 cGoodProof
     (List.Mem.head _)⟩

/-- Claim C2 (code bug): the claim says the protocol compares the two passes'
deltas and any divergence is a fatal `ReplayMismatch`, but the source
destructures and drops both executor outputs without comparing them (and
defines no replay-mismatch error at all): with concrete oracles whose
discovery delta and replay delta differ, `get_input` and `verify_stf` still
succeed. -/
theorem replay_divergence_not_detected :
    (∃ inp, getInput oBase 1 = RResult.ok inp ∧ verifyStf oBase inp = RResult.ok ()) ∧
    (∀ b s t, oBase.execDisc b s t = Except.ok cDiscOut ∧
      oBase.execReplay b s t = Except.ok cReplayOut) ∧
    cDiscOut ≠ cReplayOut :=
  ⟨⟨_, rfl, rfl⟩, fun _ _ _ => ⟨rfl, rfl⟩, by decide⟩

/-- Claim C5: every query against a sealed store whose key is not in the
backing input — an unknown account, a storage slot of an unknown account, an
unproven slot of a known account, an unknown block number — returns the hard
`MissingWitnessData` failure, never a default value. -/
theorem sealed_store_miss_is_hard_failure (db : WitnessDb)
    (a a' s s' n : Nat) (p : FullAccountProof)
    (ha : assocGet a db.input.address_to_proof = none)
    (ha' : assocGet a' db.input.address_to_proof = some p)
    (hs' : assocGet s' p.account_proof.storage_proofs = none)
    (hn : assocGet n db.input.block_hashes = none) :
    db.fetch_account a = .error .missingWitnessData ∧
    db.fetch_storage a s = .error .missingWitnessData ∧
    db.fetch_storage a' s' = .error .missingWitnessData ∧
    db.fetch_block_hash n = .error .missingWitnessData := by
  refine ⟨?_, ?_, ?_, ?_⟩
  · unfold WitnessDb.fetch_account; rw [ha]
  · unfold WitnessDb.fetch_storage; rw [ha]
  · unfold WitnessDb.fetch_storage; simp only [ha', hs']
  · unfold WitnessDb.fetch_block_hash; rw [hn]

/-- Witness for C5: on a store holding only address 7 with no storage slots
and no block hashes, the four miss shapes all fail hard. -/
theorem sealed_store_miss_is_hard_failure_witness :
    cStoreDb.fetch_account 0 = .error .missingWitnessData ∧
    cStoreDb.fetch_storage 0 1 = .error .missingWitnessData ∧
    cStoreDb.fetch_storage 7 1 = .error .missingWitnessData ∧
    cStoreDb.fetch_block_hash 0 = .error .missingWitnessData :=
  sealed_store_miss_is_hard_failure cStoreDb 0 7 1 1 0 cGoodProof rfl rfl rfl rfl

/-- Claim C6: when the discovery setup succeeds (for a target block whose
number matches the requested one), the network-backed store it constructs is
pinned at `target_block.number - 1` and carries the previous (parent) block's
committed state root. -/
theorem discovery_store_pinned (provider : Nat → Option RpcBlock) (bn : Nat)
    (blk prev : Block) (db : RpcDb) (_hbn : 0 < bn)
    (h : discoveryStore provider bn = .ok (blk, prev, db))
    (hnum : blk.header.number = bn) :
    db.block_number = blk.header.number - 1 ∧
    db.state_root = prev.header.state_root := by
  unfold discoveryStore at h
  cases h1 : fetchBlock provider bn .blockNotFound with
  | error e => rw [h1, RResult.bind_error] at h; exact nomatch h
  | panicked => rw [h1, RResult.bind_panicked] at h; exact nomatch h
  | ok b1 =>
    rw [h1, RResult.bind_ok] at h
    cases h2 : fetchBlock provider (bn - 1) .prevBlockNotFound with
    | error e => rw [h2, RResult.bind_error] at h; exact nomatch h
    | panicked => rw [h2, RResult.bind_panicked] at h; exact nomatch h
    | ok b2 =>
      rw [h2, RResult.bind_ok] at h
      cases h
      exact ⟨by rw [hnum]; rfl, rfl⟩

/-- Witness for C6: the concrete provider serving blocks 1 and 0 yields a
store pinned at block 0 with the parent's state root 5. -/
theorem discovery_store_pinned_witness :
    ∃ blk prev db, discoveryStore cProvider 1 = RResult.ok (blk, prev, db) ∧
      db.block_number = blk.header.number - 1 ∧
      db.state_root = prev.header.state_root := by
  refine ⟨_, _, _, rfl, ?_⟩
  exact discovery_store_pinned cProvider 1 _ _ _ (by decide) rfl rfl

/-- Claim C7: when sender recovery fails for the block, the discovery pass
(in `get_input`) and the replay pass (in `verify_stf`, once sealing passed)
both abort with the executor-native `SenderRecoveryError`, unchanged. -/
theorem sender_recovery_error_propagates (o : Oracles) (bn : Nat)
    (blk prev : Block) (db : RpcDb) (inp : SP1Input)
    (hd : discoveryStore o.provider bn = .ok (blk, prev, db))
    (hrec : o.recoverSenders blk = none)
    (hseal : sealWitnesses o.mpt o.keccak inp.prev_block.header.state_root
      inp.address_to_proof = .ok ())
    (hrec2 : o.recoverSenders inp.block = none) :
    getInput o bn = .error (.validation .senderRecoveryError) ∧
    verifyStf o inp = .error (.validation .senderRecoveryError) := by
  constructor
  · rw [getInput_eq o bn blk prev db hd]
    unfold execPass
    rw [hrec, RResult.bind_error]
  · unfold verifyStf WitnessDb.new
    rw [hseal, RResult.mapError_ok, RResult.bind_ok]
    unfold execPass
    rw [hrec2, RResult.bind_error]

/-- Witness for C7: with oracles whose sender recovery always fails, both
entry points abort with `SenderRecoveryError`. -/
theorem sender_recovery_error_propagates_witness :
    getInput oNoSenders 1 = RResult.error (.validation .senderRecoveryError) ∧
    verifyStf oNoSenders cEmptyInput = RResult.error (.validation .senderRecoveryError) :=
  sender_recovery_error_propagates oNoSenders 1 (mkBlockLit 1 9) (mkBlockLit 0 5)
    (RpcDb.new 0 5) cEmptyInput rfl rfl rfl rfl

end RethNew
